import Mathlib

/-!
Verification of the GuardianEye monitoring plugin core
(`octoprint_guardianeye`): verdict parsing, snapshot capture,
the strike-based monitor state machine, the verdict/session history
store and the vision-provider factory, shallowly embedded in Lean.

Python strings are modelled as `List Char`; byte strings as `List Nat`;
floats appearing in exact decimal computations as `ℚ`; dictionaries
with string keys as association lists.  Network and filesystem effects
are modelled as explicit inputs (the outcome a cycle observed) and
outputs (the actions a cycle performed).
-/

namespace GuardianEye

/-! ## Python string primitives -/

/-- Characters stripped by Python `str.strip()` on ASCII input:
space, tab, newline, carriage return, vertical tab, form feed. -/
def isPySpace (c : Char) : Bool :=
  c = ' ' || c = '\t' || c = '\n' || c = '\r' || c = Char.ofNat 11 || c = Char.ofNat 12

/-- Python `s.lstrip()` (whitespace only). -/
def pyLstrip (s : List Char) : List Char := s.dropWhile isPySpace

/-- Python `s.strip()` (whitespace both ends). -/
def pyStrip (s : List Char) : List Char :=
  ((s.dropWhile isPySpace).reverse.dropWhile isPySpace).reverse

/-- Python `s.upper()`.  The model maps each character independently;
this is exact for the ASCII replies the verdict grammar is about. -/
def pyUpper (s : List Char) : List Char := s.map Char.toUpper

/-- Index of the first occurrence of `pat` as a contiguous substring of
`s` (Python `s.index(pat)` / the `pat in s` test via `Option.isSome`). -/
def subIdx? (pat : List Char) : List Char → Option Nat
  | [] => if pat.isPrefixOf ([] : List Char) then some 0 else none
  | c :: tl =>
      if pat.isPrefixOf (c :: tl) then some 0
      else (subIdx? pat tl).map (· + 1)

/-- Python `xs[-n:]`: for `n = 0` this is the WHOLE list (`xs[0:]`),
otherwise the last `min n (length xs)` elements. -/
def pySliceLast (n : Nat) (xs : List α) : List α :=
  if n = 0 then xs else xs.drop (xs.length - n)

/-- `os.path.basename`: the component after the last slash. -/
def pyBasename (p : List Char) : List Char :=
  (p.reverse.takeWhile (fun c => ¬ c = '/')).reverse

/-- Round half to even (Python's `round` tie-breaking), on exact rationals. -/
def roundHalfEven (q : ℚ) : ℤ :=
  let f : ℤ := ⌊q⌋
  let r : ℚ := q - f
  if r < 1/2 then f
  else if 1/2 < r then f + 1
  else if f % 2 = 0 then f else f + 1

/-- Python `round(x, 1)` modelled on exact rationals. -/
def pyRound1 (q : ℚ) : ℚ := (roundHalfEven (q * 10) : ℚ) / 10

/-! ## Verdict parser (`vision_providers._parse_verdict`) -/

/-- The uppercase FAIL literal searched for in the uppercased reply. -/
def failLit : List Char := "VERDICT: FAIL".toList

/-- The uppercase OK literal searched for in the uppercased reply. -/
def okLit : List Char := "VERDICT: OK".toList

/-- `after.lstrip().lstrip("|").strip()`: the reason text after a verdict
literal, stripped of leading whitespace, then leading pipes, then
whitespace on both ends. -/
def stripReason (after : List Char) : List Char :=
  pyStrip ((after.dropWhile isPySpace).dropWhile (fun c => c = '|'))

/-- Embedding of `_parse_verdict(reply)` from
`src/octoprint_guardianeye/vision_providers.py`: returns
`(failed, reason, confidence)`. -/
def parse_verdict (reply : List Char) : Bool × List Char × ℚ :=
  let rep := pyStrip reply
  let upper := pyUpper rep
  match subIdx? failLit upper with
  | some idx =>
      let after := rep.drop (idx + failLit.length)
      let reason := stripReason after
      (true, if reason = [] then "visual failure detected".toList else reason, 19/20)
  | none =>
      match subIdx? okLit upper with
      | some idx =>
          let after := rep.drop (idx + okLit.length)
          let reason := stripReason after
          (false, if reason = [] then "print looks normal".toList else reason, 0)
      | none =>
          (false, rep.take 200, 0)

/-- The parsing rule as the (amended) claim words it: search
case-insensitively for `VERDICT: FAIL` first; if present the text after
the literal, stripped of leading pipe and whitespace, is the reason
(default `visual failure detected`), confidence 0.95; else search for
`VERDICT: OK` (reason default `print looks normal`, confidence 0.0);
else failed is false, confidence 0.0 and the reason is the first 200
characters of the whitespace-stripped reply. -/
def parseVerdictClaim (reply : List Char) : Bool × List Char × ℚ :=
  let r := pyStrip reply
  let u := pyUpper r
  if hf : (subIdx? failLit u).isSome then
    let reason := stripReason (r.drop ((subIdx? failLit u).get hf + failLit.length))
    (true, if reason.isEmpty then "visual failure detected".toList else reason, 19/20)
  else if ho : (subIdx? okLit u).isSome then
    let reason := stripReason (r.drop ((subIdx? okLit u).get ho + okLit.length))
    (false, if reason.isEmpty then "print looks normal".toList else reason, 0)
  else
    (false, r.take 200, 0)

/-! ## Snapshot capture (`snapshot.capture_snapshot`) -/

/-- JPEG SOI magic bytes. -/
def jpegMagic : List Nat := [0xff, 0xd8]

/-- Outcome of one `capture_snapshot` call.  Only `saved` creates a file
(with exactly the response bytes) at the destination path. -/
inductive CaptureResult
  | httpError
  | formatError
  | saved (path : List Char) (bytes : List Nat)
deriving DecidableEq, Repr

/-- Embedding of `capture_snapshot(snapshot_url, output_path)` from
`src/octoprint_guardianeye/snapshot.py`.  `statusOk` models
`resp.raise_for_status()` not raising; `content` is the response body. -/
def capture_snapshot (statusOk : Bool) (content : List Nat) (output_path : List Char) :
    CaptureResult :=
  if ¬ statusOk then .httpError
  else if content = [] ∨ ¬ content.take 2 = jpegMagic then .formatError
  else .saved output_path content

/-! ## Vision provider factory (`vision_providers.create_vision_provider`) -/

/-- Plugin settings dict: string keys to string values. -/
def Settings := List (String × String)

/-- Python `settings.get(key, default)`. -/
def sget (s : Settings) (key dflt : String) : String :=
  match List.lookup key s with
  | some v => v
  | none => dflt

/-- Python `s.rstrip("/")`. -/
def pyRstripSlash (s : String) : String :=
  ⟨(s.toList.reverse.dropWhile (fun c => c = '/')).reverse⟩

/-- A constructed vision provider, carrying the constructor arguments
each Python provider class stores. -/
inductive VisionProvider
  | openai (api_key model : String)
  | azure_openai (api_key endpoint deployment api_version : String)
  | anthropic (api_key model : String)
  | xai (api_key model : String)
  | gemini (api_key model : String)
  | ollama (endpoint model : String)
deriving DecidableEq, Repr

/-- The `model` attribute of a provider (for Azure, `model = deployment`). -/
def VisionProvider.modelOf : VisionProvider → String
  | .openai _ m => m
  | .azure_openai _ _ d _ => d
  | .anthropic _ m => m
  | .xai _ m => m
  | .gemini _ m => m
  | .ollama _ m => m

/-- Embedding of `create_vision_provider(settings)` from
`src/octoprint_guardianeye/vision_providers.py`; `Except.error` models
the `ValueError` raised on an unknown provider name. -/
def create_vision_provider (settings : Settings) : Except String VisionProvider :=
  let provider_name := sget settings "provider" "openai"
  let api_key := sget settings "api_key" ""
  if provider_name = "openai" then
    .ok (.openai api_key (sget settings "openai_model" "gpt-4o-mini"))
  else if provider_name = "azure_openai" then
    .ok (.azure_openai api_key (pyRstripSlash (sget settings "azure_endpoint" ""))
      (sget settings "azure_deployment" "gpt-4o-mini")
      (sget settings "azure_api_version" "2025-01-01-preview"))
  else if provider_name = "anthropic" then
    .ok (.anthropic api_key (sget settings "anthropic_model" "claude-sonnet-4-20250514"))
  else if provider_name = "xai" then
    .ok (.xai api_key (sget settings "xai_model" "grok-2-vision-latest"))
  else if provider_name = "gemini" then
    .ok (.gemini api_key (sget settings "gemini_model" "gemini-2.0-flash"))
  else if provider_name = "ollama" then
    .ok (.ollama (sget settings "ollama_endpoint" "http://localhost:11434")
      (sget settings "ollama_model" "llava"))
  else
    .error ("Unknown vision provider: " ++ provider_name)

/-- The settings dict built by `GuardianEyePlugin.get_vision_provider`
(`src/octoprint_guardianeye/__init__.py`): exactly these six keys. -/
def plugin_provider_settings (provider endpoint api_key model azure_deployment
    azure_api_version : String) : Settings :=
  [("provider", provider), ("endpoint", endpoint), ("api_key", api_key),
   ("model", model), ("azure_deployment", azure_deployment),
   ("azure_api_version", azure_api_version)]

/-! ## Verdicts (`vision_providers.VisionAnalysisResult`) -/

/-- One normalized vision-analysis verdict. -/
structure VisionAnalysisResult where
  failed : Bool
  reason : String
  confidence : ℚ
  provider : String
  model : String
  latency_ms : Nat
  cost : ℚ
deriving DecidableEq, Repr

/-! ## Verdict history (`history.VerdictHistory`) -/

/-- `_MAX_VERDICTS` in `src/octoprint_guardianeye/history.py`. -/
def _MAX_VERDICTS : Nat := 500

/-- One persisted verdict-history record, as built by `VerdictHistory.add`. -/
structure VerdictEntry where
  id : String
  timestamp : ℚ
  cycle : Nat
  layer : Option Nat
  progress : Nat
  failed : Bool
  reason : String
  confidence : ℚ
  provider : String
  model : String
  latency_ms : Nat
  cost : ℚ
  false_positive : Bool
  snapshot : Option String
deriving DecidableEq, Repr

/-- The record `VerdictHistory.add` builds from a verdict dict; the fresh
`id` and `timestamp` are environment inputs. -/
def VerdictEntry.build (e_id : String) (ts : ℚ) (v : VisionAnalysisResult)
    (snapshot : Option String) (cycle : Nat) (layer : Option Nat) (progress : Nat) :
    VerdictEntry :=
  { id := e_id, timestamp := ts, cycle := cycle, layer := layer, progress := progress,
    failed := v.failed, reason := v.reason, confidence := v.confidence,
    provider := v.provider, model := v.model, latency_ms := v.latency_ms,
    cost := v.cost, false_positive := false, snapshot := snapshot }

/-- Embedding of `VerdictHistory.add`: append the new entry, then trim to
the last `_MAX_VERDICTS` when the list has grown past the cap. -/
def VerdictHistory.add (e_id : String) (ts : ℚ) (v : VisionAnalysisResult)
    (snapshot : Option String) (cycle : Nat) (layer : Option Nat) (progress : Nat)
    (entries : List VerdictEntry) : List VerdictEntry :=
  let entries := entries ++ [VerdictEntry.build e_id ts v snapshot cycle layer progress]
  if _MAX_VERDICTS < entries.length then pySliceLast _MAX_VERDICTS entries
  else entries

/-- Embedding of `VerdictHistory.get_entries(limit)`:
`list(reversed(self._entries[-limit:]))`. -/
def VerdictHistory.get_entries (limit : Nat) (entries : List VerdictEntry) :
    List VerdictEntry :=
  (pySliceLast limit entries).reverse

/-! ## Session history (`history.SessionHistory`) -/

/-- One per-print session summary. -/
structure Session where
  id : String
  started : ℚ
  ended : Option ℚ
  filename : Option String
  cycles : Nat
  ok_count : Nat
  fail_count : Nat
  max_consecutive_fails : Nat
  emergency_stop : Bool
  total_cost : ℚ
  print_score : Option ℚ
deriving DecidableEq, Repr

/-- The session store: the persisted list plus the at-most-one open session. -/
structure SessionHistory where
  sessions : List Session
  current : Option Session
deriving DecidableEq, Repr

/-- Embedding of `SessionHistory.start_session(filename)`; fresh `id` and
`started` time are environment inputs. -/
def SessionHistory.start_session (h : SessionHistory) (s_id : String) (now : ℚ)
    (filename : Option String) : SessionHistory :=
  let c : Session :=
    { id := s_id, started := now, ended := none, filename := filename,
      cycles := 0, ok_count := 0, fail_count := 0, max_consecutive_fails := 0,
      emergency_stop := false, total_cost := 0, print_score := none }
  { h with current := some c }

/-- Embedding of `SessionHistory.record_verdict(failed, cost)`. -/
def SessionHistory.record_verdict (h : SessionHistory) (failed : Bool) (cost : ℚ) :
    SessionHistory :=
  match h.current with
  | none => h
  | some c =>
      let c := { c with cycles := c.cycles + 1, total_cost := c.total_cost + cost }
      let c := if failed then { c with fail_count := c.fail_count + 1 }
               else { c with ok_count := c.ok_count + 1 }
      { h with current := some c }

/-- Embedding of `SessionHistory.end_session(emergency_stop)`: a no-op
returning nothing with no open session; otherwise finalize the score,
append, clear the open session and return the finalized session. -/
def SessionHistory.end_session (h : SessionHistory) (emergency_stop : Bool) (now : ℚ) :
    SessionHistory × Option Session :=
  match h.current with
  | none => (h, none)
  | some c =>
      let c := { c with ended := some now, emergency_stop := emergency_stop }
      let score := pyRound1 ((c.ok_count : ℚ) / (c.cycles : ℚ) * 100)
      let c := if 0 < c.cycles then { c with print_score := some score } else c
      ({ sessions := h.sessions ++ [c], current := none }, some c)

/-! ## Monitor state machine (`monitor.MonitorState` / `monitor.PrintMonitor`) -/

/-- Mutable state of the monitoring engine (`MonitorState.__init__`). -/
structure MonitorState where
  active : Bool
  cycle_count : Nat
  last_verdict : Option VisionAnalysisResult
  last_snapshot_path : Option String
  consecutive_failures : Nat
  failure_detected : Bool
  failure_reason : Option String
  emergency_stop_sent : Bool
  layer : Option Nat
  total_layers : Option Nat
  progress : Nat
  errors : List String
deriving DecidableEq, Repr

/-- The field values assigned by `MonitorState.__init__`. -/
def MonitorState.init : MonitorState :=
  { active := false, cycle_count := 0, last_verdict := none,
    last_snapshot_path := none, consecutive_failures := 0,
    failure_detected := false, failure_reason := none,
    emergency_stop_sent := false, layer := none, total_layers := none,
    progress := 0, errors := [] }

/-- The snapshot dictionary produced by `MonitorState.to_dict`. -/
structure StateDict where
  active : Bool
  cycle_count : Nat
  last_verdict : Option VisionAnalysisResult
  last_snapshot_path : Option String
  consecutive_failures : Nat
  failure_detected : Bool
  failure_reason : Option String
  emergency_stop_sent : Bool
  layer : Option Nat
  total_layers : Option Nat
  progress : Nat
  errors : List String
deriving DecidableEq, Repr

/-- Embedding of `MonitorState.to_dict`: the snapshot path is reduced to
its basename and only the last 10 errors (`self.errors[-10:]`) are kept. -/
def MonitorState.to_dict (s : MonitorState) : StateDict :=
  { active := s.active, cycle_count := s.cycle_count,
    last_verdict := s.last_verdict,
    last_snapshot_path := s.last_snapshot_path.map
      (fun p => String.mk (pyBasename p.toList)),
    consecutive_failures := s.consecutive_failures,
    failure_detected := s.failure_detected, failure_reason := s.failure_reason,
    emergency_stop_sent := s.emergency_stop_sent, layer := s.layer,
    total_layers := s.total_layers, progress := s.progress,
    errors := pySliceLast 10 s.errors }

/-- The monitor object: its state plus whether a repeating timer is installed. -/
structure PrintMonitor where
  state : MonitorState
  timer : Bool
deriving DecidableEq, Repr

/-- Embedding of `PrintMonitor.stop`: cancel the timer if present, set
`active = False`, and return a snapshot of the final state. -/
def PrintMonitor.stop (m : PrintMonitor) : PrintMonitor × StateDict :=
  let m' : PrintMonitor := { state := { m.state with active := false }, timer := false }
  (m', m'.state.to_dict)

/-- The monitor right after `PrintMonitor.start`: state reset then
`active = True`, timer installed. -/
def startedMonitor : PrintMonitor :=
  { state := { MonitorState.init with active := true }, timer := true }

/-- Python `x or d` on a non-negative integer setting: `d` when `x == 0`. -/
def orDefault (n d : Nat) : Nat := if n = 0 then d else n

/-- The stage gate of step 4 of `_monitor_cycle`:
`layer is not None and layer < (min_layer_for_vision or 2)`. -/
def layerGateBlocks (minLayer : Nat) (s : MonitorState) : Bool :=
  match s.layer with
  | some l => l < orDefault minLayer 2
  | none => false

/-- What the environment did during one cycle: the snapshot fetch raised,
or the snapshot succeeded (saved at `path`) and the vision call raised,
or both succeeded yielding a verdict. -/
inductive CycleOutcome
  | snapshotFailed (err : String)
  | analyzeFailed (path : String) (err : String)
  | analyzed (path : String) (v : VisionAnalysisResult)
deriving DecidableEq, Repr

/-- Externally visible actions of one cycle: calls to the abort callback
(`_printer.cancel_print`), to `send_failure_notifications`, and to `stop`. -/
structure CycleEffects where
  aborts : Nat
  notifications : Nat
  stops : Nat
deriving DecidableEq, Repr

/-- No external action. -/
def CycleEffects.zero : CycleEffects := ⟨0, 0, 0⟩

/-- Accumulate the actions of consecutive cycles. -/
def CycleEffects.add (a b : CycleEffects) : CycleEffects :=
  ⟨a.aborts + b.aborts, a.notifications + b.notifications, a.stops + b.stops⟩

/-- Embedding of `PrintMonitor._handle_failure(reason)`: mark the failure,
fire the abort callback and the notification dispatch, then `stop()`
(whose returned snapshot is discarded). -/
def PrintMonitor.handle_failure (m : PrintMonitor) (reason : String) :
    PrintMonitor × CycleEffects :=
  let s := { m.state with failure_detected := true,
                          failure_reason := some reason,
                          emergency_stop_sent := true }
  let m' := (PrintMonitor.stop { m with state := s }).1
  (m', ⟨1, 1, 1⟩)

/-- Embedding of `PrintMonitor._monitor_cycle` for one tick, parametrized
by the settings `fail_strikes` and `min_layer_for_vision` and by the
environment's `CycleOutcome`.  Cost annotation, history recording and the
state-update push are external effects not tracked here. -/
def monitorCycle (strikes minLayer : Nat) (out : CycleOutcome) (m : PrintMonitor) :
    PrintMonitor × CycleEffects :=
  if ¬ m.state.active then (m, .zero)
  else
    let s0 := { m.state with cycle_count := m.state.cycle_count + 1 }
    let cycle_num := s0.cycle_count
    match out with
    | .snapshotFailed err =>
        let msg := "Cycle " ++ toString cycle_num ++ ": snapshot failed: " ++ err
        ({ m with state := { s0 with errors := s0.errors ++ [msg] } }, .zero)
    | .analyzeFailed path err =>
        let s1 := { s0 with last_snapshot_path := some path }
        if layerGateBlocks minLayer s1 then ({ m with state := s1 }, .zero)
        else
          let msg := "Cycle " ++ toString cycle_num ++ ": vision error: " ++ err
          ({ m with state := { s1 with errors := s1.errors ++ [msg] } }, .zero)
    | .analyzed path v =>
        let s1 := { s0 with last_snapshot_path := some path }
        if layerGateBlocks minLayer s1 then ({ m with state := s1 }, .zero)
        else
          let s2 := { s1 with last_verdict := some v }
          if v.failed then
            let strikesNow := s2.consecutive_failures + 1
            let needed := orDefault strikes 3
            let s3 := { s2 with consecutive_failures := strikesNow }
            if needed ≤ strikesNow then
              PrintMonitor.handle_failure { m with state := s3 }
                ("Vision: " ++ v.reason ++ " (" ++ toString strikesNow ++ "/" ++
                 toString needed ++ " consecutive strikes)")
            else ({ m with state := s3 }, .zero)
          else
            ({ m with state := { s2 with consecutive_failures := 0 } }, .zero)

/-- Run a sequence of cycles, accumulating the external actions. -/
def runCycles (strikes minLayer : Nat) (outs : List CycleOutcome) (m : PrintMonitor) :
    PrintMonitor × CycleEffects :=
  match outs with
  | [] => (m, CycleEffects.zero)
  | o :: rest =>
      let step := monitorCycle strikes minLayer o m
      let tail := runCycles strikes minLayer rest step.1
      (tail.1, step.2.add tail.2)

/-- A concrete failing verdict. -/
def failVerdict : VisionAnalysisResult :=
  { failed := true, reason := "spaghetti", confidence := 19/20,
    provider := "openai", model := "gpt-4o-mini", latency_ms := 100, cost := 0 }

/-- A concrete non-failing verdict. -/
def okVerdict : VisionAnalysisResult :=
  { failed := false, reason := "print looks normal", confidence := 0,
    provider := "openai", model := "gpt-4o-mini", latency_ms := 100, cost := 0 }

/-- A monitoring cycle whose vision call returned a failing verdict. -/
def failOutcome : CycleOutcome := .analyzed "snap.jpg" failVerdict

/-- A monitoring cycle whose vision call returned a non-failing verdict. -/
def okOutcome : CycleOutcome := .analyzed "snap.jpg" okVerdict

/-- A running monitor two strikes into a failure streak. -/
def streakMonitor : PrintMonitor :=
  { state := { startedMonitor.state with consecutive_failures := 2 }, timer := true }

/-- The invariant the strike policy maintains: while the monitor is
active, the consecutive-failure count stays strictly below the effective
strike threshold. -/
def StrikeInv (strikes : Nat) (m : PrintMonitor) : Prop :=
  m.state.active = true → m.state.consecutive_failures < orDefault strikes 3

/-- The scenario of claim C6: start a session, record three failing
verdicts at cost 0.01 and one non-failing verdict, end the session. -/
def c6Scenario : SessionHistory × Option Session :=
  let h0 := (⟨[], none⟩ : SessionHistory).start_session "s1" 0 none
  let h1 := h0.record_verdict true (1/100)
  let h2 := h1.record_verdict true (1/100)
  let h3 := h2.record_verdict true (1/100)
  let h4 := h3.record_verdict false 0
  h4.end_session false 0

/-- Does this outcome carry a failing verdict? -/
def CycleOutcome.isFailingVerdict : CycleOutcome → Bool
  | .analyzed _ v => v.failed
  | _ => false

/-- A sample persisted verdict entry, for concrete instantiations. -/
def sampleEntry : VerdictEntry :=
  { id := "e1", timestamp := 0, cycle := 1, layer := none, progress := 0,
    failed := false, reason := "", confidence := 0, provider := "", model := "",
    latency_ms := 0, cost := 0, false_positive := false, snapshot := none }

/-! ## Theorems -/

/-- Claim C5: `capture_snapshot` rejects every 200-response whose body does
not begin with the JPEG magic bytes 0xFF 0xD8 (including an empty body)
with a format error, and then no file is created at the destination path;
when the body does begin with the magic bytes, the raw bytes are written
to the given path and that path is returned. -/
theorem c5_capture_snapshot (content : List Nat) (path : List Char) :
    (¬ content.take 2 = jpegMagic →
        capture_snapshot true content path = CaptureResult.formatError) ∧
    (content.take 2 = jpegMagic →
        capture_snapshot true content path = CaptureResult.saved path content) := by
  constructor
  · intro h
    simp [capture_snapshot, h]
  · intro h
    have hne : ¬ content = [] := by
      intro hc
      rw [hc] at h
      simp [jpegMagic] at h
    simp [capture_snapshot, h, hne]

/-- Witness for C5 at concrete inputs: a PNG-looking body is rejected, a
JPEG body is saved. -/
theorem c5_capture_snapshot_witness :
    capture_snapshot true [137, 80] ['p'] = CaptureResult.formatError ∧
    capture_snapshot true [255, 216, 7] ['p'] =
      CaptureResult.saved ['p'] [255, 216, 7] :=
  ⟨(c5_capture_snapshot [137, 80] ['p']).1 (by decide),
   (c5_capture_snapshot [255, 216, 7] ['p']).2 (by decide)⟩

/-- Claim C8 counterexample: after 11 cycles that each append an error,
the `MonitorState.errors` list holds 11 entries, so the state itself does
not keep only the last 10. -/
theorem c8_errors_unbounded_counterexample :
    ((runCycles 3 2 (List.replicate 11 (CycleOutcome.snapshotFailed "boom"))
        startedMonitor).1.state.errors).length = 11 := by rfl

/-- Claim C8 (amended): the in-memory `errors` list grows without bound;
it is each exported state snapshot (`to_dict`) that keeps at most the last
10 errors, most recent ones in order. -/
theorem c8_to_dict_errors_last_ten (s : MonitorState) :
    s.to_dict.errors = s.errors.drop (s.errors.length - 10) ∧
    s.to_dict.errors.length ≤ 10 := by
  constructor
  · simp [MonitorState.to_dict, pySliceLast]
  · simp [MonitorState.to_dict, pySliceLast, List.length_drop]
    omega

/-- Claim C9: `stop` cancels the timer if present, sets `active` to false
and returns a snapshot of the final state; it is idempotent: a second
`stop` (or a `stop` on a never-started monitor, covered by the quantifier
over `m`) performs the same transition to the same inactive state and
returns the same snapshot. -/
theorem c9_stop_idempotent (m : PrintMonitor) :
    (m.stop.1).stop = m.stop ∧
    m.stop.1.state.active = false ∧
    m.stop.1.timer = false ∧
    m.stop.2.active = false :=
  ⟨rfl, rfl, rfl, rfl⟩

/-- Claim C10: with the six-key settings dict built by
`get_vision_provider` (`provider`, `endpoint`, `api_key`, `model`,
`azure_deployment`, `azure_api_version`), the factory looks up per-vendor
keys that are absent from that dict, so for the openai, anthropic, xai,
gemini and ollama providers the configured `model` and `endpoint` values
are ignored and the vendor's hardcoded defaults are used. -/
theorem c10_factory_ignores_configured_model
    (endpoint api_key model azure_deployment azure_api_version : String) :
    create_vision_provider (plugin_provider_settings "openai" endpoint api_key model
        azure_deployment azure_api_version) =
      Except.ok (.openai api_key "gpt-4o-mini") ∧
    create_vision_provider (plugin_provider_settings "anthropic" endpoint api_key model
        azure_deployment azure_api_version) =
      Except.ok (.anthropic api_key "claude-sonnet-4-20250514") ∧
    create_vision_provider (plugin_provider_settings "xai" endpoint api_key model
        azure_deployment azure_api_version) =
      Except.ok (.xai api_key "grok-2-vision-latest") ∧
    create_vision_provider (plugin_provider_settings "gemini" endpoint api_key model
        azure_deployment azure_api_version) =
      Except.ok (.gemini api_key "gemini-2.0-flash") ∧
    create_vision_provider (plugin_provider_settings "ollama" endpoint api_key model
        azure_deployment azure_api_version) =
      Except.ok (.ollama "http://localhost:11434" "llava") :=
  ⟨rfl, rfl, rfl, rfl, rfl⟩

/-- Claim C7 counterexample: `get_entries 0` on a store holding one entry
returns that entry (Python `xs[-0:]` is the whole list), not the 0 most
recent entries. -/
theorem c7_get_entries_zero_counterexample :
    VerdictHistory.get_entries 0 [sampleEntry] = [sampleEntry] := by rfl

/-- Claim C7 (amended): after any number of `add` calls the store holds at
most 500 entries and each `add` evicts oldest-first (the result is a
suffix of the appended list); for every `k ≥ 1`, `get_entries k` returns
the `min k count` most recent entries in reverse-chronological order
(newest first); for `k = 0` it returns ALL entries newest first. -/
theorem c7_history_cap_and_recency (k : Nat) (entries : List VerdictEntry)
    (e_id : String) (ts : ℚ) (v : VisionAnalysisResult) (snap : Option String)
    (cycle : Nat) (layer : Option Nat) (progress : Nat) :
    (VerdictHistory.add e_id ts v snap cycle layer progress entries).length ≤ 500 ∧
    (VerdictHistory.add e_id ts v snap cycle layer progress entries) <:+
      (entries ++ [VerdictEntry.build e_id ts v snap cycle layer progress]) ∧
    (1 ≤ k → VerdictHistory.get_entries k entries = entries.reverse.take k) ∧
    VerdictHistory.get_entries 0 entries = entries.reverse := by
  refine ⟨?_, ?_, ?_, ?_⟩
  · simp only [VerdictHistory.add]
    by_cases h5 : _MAX_VERDICTS <
        (entries ++ [VerdictEntry.build e_id ts v snap cycle layer progress]).length
    · rw [if_pos h5]
      simp [pySliceLast, _MAX_VERDICTS, List.length_drop]
      omega
    · rw [if_neg h5]
      simp [_MAX_VERDICTS] at h5 ⊢
      omega
  · simp only [VerdictHistory.add]
    by_cases h5 : _MAX_VERDICTS <
        (entries ++ [VerdictEntry.build e_id ts v snap cycle layer progress]).length
    · rw [if_pos h5]
      simp only [pySliceLast, _MAX_VERDICTS]
      rw [if_neg (by omega)]
      exact List.drop_suffix _ _
    · rw [if_neg h5]
  · intro hk
    have hk0 : ¬ k = 0 := by omega
    simp only [VerdictHistory.get_entries, pySliceLast, hk0, if_neg, not_false_iff]
    exact (List.take_reverse).symm
  · simp [VerdictHistory.get_entries, pySliceLast]

/-- Witness for C7 at a concrete input. -/
theorem c7_history_witness :
    VerdictHistory.get_entries 1 [sampleEntry] = [sampleEntry].reverse.take 1 :=
  (c7_history_cap_and_recency 1 [sampleEntry] "x" 0
      { failed := false, reason := "", confidence := 0, provider := "", model := "",
        latency_ms := 0, cost := 0 } none 0 none 0).2.2.1 (by decide)

/-- Claim C2 counterexample: for the malformed reply `" hi"` (leading
whitespace, neither verdict literal) the parser's fallback reason is the
first 200 characters of the whitespace-STRIPPED reply, not of the raw
reply as the claim states. -/
theorem c2_raw_reply_counterexample :
    parse_verdict " hi".toList = (false, "hi".toList, 0) ∧
    ¬ (" hi".toList).take 200 = "hi".toList := by
  constructor
  · rfl
  · decide

/-- Claim C2 (amended): the parser searches case-insensitively for
`VERDICT: FAIL` first (failed = true, reason = text after the literal
stripped of leading pipe and whitespace, default `visual failure
detected`, confidence 0.95), else for `VERDICT: OK` (failed = false,
confidence 0.0, reason default `print looks normal`), and for a reply
containing neither literal returns failed = false, confidence 0.0 and the
first 200 characters of the WHITESPACE-STRIPPED reply as the reason — so
a malformed reply is never parsed as a failure.  Formally `parse_verdict`
coincides with the rule `parseVerdictClaim` stated from that wording. -/
theorem c2_parse_verdict_rule (reply : List Char) :
    parse_verdict reply = parseVerdictClaim reply := by
  unfold parse_verdict parseVerdictClaim
  cases hf : subIdx? failLit (pyUpper (pyStrip reply)) with
  | some idx => simp [hf, List.isEmpty_iff]
  | none =>
      cases ho : subIdx? okLit (pyUpper (pyStrip reply)) with
      | some idx => simp [hf, ho, List.isEmpty_iff]
      | none => simp [hf, ho]

/-- Claim C6: `end_session` with no open session returns nothing and
appends nothing; with an open session it sets the print score to
`round(ok_count / cycles * 100, 1)` when `cycles > 0` and leaves it as it
was (null for a session opened by `start_session`) when `cycles = 0`,
appends the finalized session and clears the open session; in particular
after `start_session`, three failing `record_verdict` calls at cost 0.01
and one non-failing one, `end_session` yields a print score of 25.0 over
4 cycles. -/
theorem c6_end_session :
    (∀ (h : SessionHistory) (es : Bool) (t : ℚ), h.current = none →
        h.end_session es t = (h, none)) ∧
    (∀ (h : SessionHistory) (c : Session) (es : Bool) (t : ℚ), h.current = some c →
        ∃ s, h.end_session es t =
            ({ sessions := h.sessions ++ [s], current := none }, some s) ∧
          s.cycles = c.cycles ∧
          s.print_score = (if 0 < c.cycles then
              some (pyRound1 ((c.ok_count : ℚ) / (c.cycles : ℚ) * 100))
            else c.print_score)) ∧
    (∃ s, c6Scenario.2 = some s ∧ s.print_score = some 25 ∧ s.cycles = 4) := by
  refine ⟨?_, ?_, ?_⟩
  · intro h es t hc
    simp [SessionHistory.end_session, hc]
  · intro h c es t hc
    unfold SessionHistory.end_session
    rw [hc]
    by_cases hcy : 0 < c.cycles
    · refine ⟨⟨c.id, c.started, some t, c.filename, c.cycles, c.ok_count,
          c.fail_count, c.max_consecutive_fails, es, c.total_cost,
          some (pyRound1 ((c.ok_count : ℚ) / (c.cycles : ℚ) * 100))⟩, ?_, rfl, ?_⟩
      · simp [hcy]
      · simp [hcy]
    · refine ⟨⟨c.id, c.started, some t, c.filename, c.cycles, c.ok_count,
          c.fail_count, c.max_consecutive_fails, es, c.total_cost,
          c.print_score⟩, ?_, rfl, ?_⟩
      · simp [hcy]
      · simp [hcy]
  · refine ⟨⟨"s1", 0, some 0, none, 4, 1, 3, 0, false, 3/100, some 25⟩, ?_, rfl, rfl⟩
    unfold c6Scenario
    simp only [SessionHistory.start_session, SessionHistory.record_verdict,
      SessionHistory.end_session]
    norm_num [pyRound1, roundHalfEven]

/-- Witness for C6: ending with no open session on the empty store. -/
theorem c6_end_session_witness :
    (⟨[], none⟩ : SessionHistory).end_session false 0 = (⟨[], none⟩, none) :=
  c6_end_session.1 ⟨[], none⟩ false 0 rfl

/-! ### Monitor state-machine lemmas -/

/-- The effective strike threshold is always positive. -/
theorem orDefault_pos (n : Nat) : 0 < orDefault n 3 := by
  unfold orDefault
  split <;> omega

/-- Unfolding one cycle of `runCycles`. -/
theorem runCycles_cons (strikes minLayer : Nat) (o : CycleOutcome)
    (rest : List CycleOutcome) (m : PrintMonitor) :
    runCycles strikes minLayer (o :: rest) m =
      ((runCycles strikes minLayer rest (monitorCycle strikes minLayer o m).1).1,
       (monitorCycle strikes minLayer o m).2.add
         (runCycles strikes minLayer rest (monitorCycle strikes minLayer o m).1).2) :=
  rfl

/-- One failing-verdict cycle strictly below the threshold: the strike
counter increments, nothing else is triggered. -/
theorem monitorCycle_fail_step (strikes minLayer : Nat) (hs : strikes ≠ 0)
    (path : String) (v : VisionAnalysisResult) (hv : v.failed = true)
    (m : PrintMonitor) (hact : m.state.active = true) (hlay : m.state.layer = none)
    (hlt : m.state.consecutive_failures + 1 < strikes) :
    monitorCycle strikes minLayer (.analyzed path v) m =
      ({ m with state :=
          { m.state with
            cycle_count := m.state.cycle_count + 1,
            last_snapshot_path := some path,
            last_verdict := some v,
            consecutive_failures := m.state.consecutive_failures + 1 } },
       CycleEffects.zero) := by
  have hneed : orDefault strikes 3 = strikes := by simp [orDefault, hs]
  have hnle : ¬ (orDefault strikes 3 ≤ m.state.consecutive_failures + 1) := by
    rw [hneed]
    omega
  simp [monitorCycle, hact, layerGateBlocks, hlay, hv, hnle]

/-- One failing-verdict cycle that reaches the threshold: abort,
notification and stop fire, and the monitor ends inactive. -/
theorem monitorCycle_fail_hit (strikes minLayer : Nat) (hs : strikes ≠ 0)
    (path : String) (v : VisionAnalysisResult) (hv : v.failed = true)
    (m : PrintMonitor) (hact : m.state.active = true) (hlay : m.state.layer = none)
    (hge : strikes ≤ m.state.consecutive_failures + 1) :
    (monitorCycle strikes minLayer (.analyzed path v) m).2 = ⟨1, 1, 1⟩ ∧
    (monitorCycle strikes minLayer (.analyzed path v) m).1.state.active = false := by
  have hneed : orDefault strikes 3 = strikes := by simp [orDefault, hs]
  have hle : orDefault strikes 3 ≤ m.state.consecutive_failures + 1 := by
    rw [hneed]
    exact hge
  constructor <;>
    simp [monitorCycle, hact, layerGateBlocks, hlay, hv, hle,
      PrintMonitor.handle_failure, PrintMonitor.stop]

/-- Running only failing verdicts while staying strictly below the
threshold: the counter adds up, the monitor stays active, no action. -/
theorem runCycles_fail_below (strikes minLayer : Nat) (hs : strikes ≠ 0) :
    ∀ (outs : List CycleOutcome) (m : PrintMonitor),
      (∀ o ∈ outs, o.isFailingVerdict = true) →
      m.state.active = true → m.state.layer = none →
      m.state.consecutive_failures + outs.length < strikes →
      (runCycles strikes minLayer outs m).1.state.consecutive_failures
          = m.state.consecutive_failures + outs.length ∧
      (runCycles strikes minLayer outs m).1.state.active = true ∧
      (runCycles strikes minLayer outs m).1.state.layer = none ∧
      (runCycles strikes minLayer outs m).2 = CycleEffects.zero := by
  intro outs
  induction outs with
  | nil =>
      intro m _ hact hlay _
      exact ⟨by simp [runCycles], by simpa [runCycles] using hact,
             by simpa [runCycles] using hlay, by simp [runCycles]⟩
  | cons o rest ih =>
      intro m hall hact hlay hlt
      simp only [List.length_cons] at hlt
      obtain ⟨path, v, rfl, hv⟩ :
          ∃ path v, o = CycleOutcome.analyzed path v ∧ v.failed = true := by
        have hm := hall o (List.mem_cons_self o rest)
        cases o with
        | analyzed p w =>
            exact ⟨p, w, rfl, by simpa [CycleOutcome.isFailingVerdict] using hm⟩
        | snapshotFailed e => simp [CycleOutcome.isFailingVerdict] at hm
        | analyzeFailed p e => simp [CycleOutcome.isFailingVerdict] at hm
      have hstep := monitorCycle_fail_step strikes minLayer hs path v hv m hact hlay
        (by omega)
      obtain ⟨ih1, ih2, ih3, ih4⟩ :=
        ih (monitorCycle strikes minLayer (CycleOutcome.analyzed path v) m).1
          (fun x hx => hall x (List.mem_cons_of_mem _ hx))
          (by rw [hstep]; exact hact)
          (by rw [hstep]; exact hlay)
          (by rw [hstep]
              show m.state.consecutive_failures + 1 + rest.length < strikes
              omega)
      rw [runCycles_cons]
      refine ⟨?_, ih2, ih3, ?_⟩
      · rw [ih1, hstep]
        show m.state.consecutive_failures + 1 + rest.length
            = m.state.consecutive_failures + (CycleOutcome.analyzed path v :: rest).length
        simp [List.length_cons]
        omega
      · rw [ih4, hstep]
        rfl

/-- Running only failing verdicts until the counter exactly reaches the
threshold: abort, notification and stop fire exactly once and the monitor
ends inactive. -/
theorem runCycles_fail_hit (strikes minLayer : Nat) (hs : strikes ≠ 0) :
    ∀ (outs : List CycleOutcome) (m : PrintMonitor),
      (∀ o ∈ outs, o.isFailingVerdict = true) →
      m.state.active = true → m.state.layer = none →
      m.state.consecutive_failures < strikes →
      m.state.consecutive_failures + outs.length = strikes →
      (runCycles strikes minLayer outs m).2 = ⟨1, 1, 1⟩ ∧
      (runCycles strikes minLayer outs m).1.state.active = false := by
  intro outs
  induction outs with
  | nil =>
      intro m _ _ _ hlt hsum
      simp only [List.length_nil, Nat.add_zero] at hsum
      exact absurd hsum (by omega)
  | cons o rest ih =>
      intro m hall hact hlay hlt hsum
      simp only [List.length_cons] at hsum
      obtain ⟨path, v, rfl, hv⟩ :
          ∃ path v, o = CycleOutcome.analyzed path v ∧ v.failed = true := by
        have hm := hall o (List.mem_cons_self o rest)
        cases o with
        | analyzed p w =>
            exact ⟨p, w, rfl, by simpa [CycleOutcome.isFailingVerdict] using hm⟩
        | snapshotFailed e => simp [CycleOutcome.isFailingVerdict] at hm
        | analyzeFailed p e => simp [CycleOutcome.isFailingVerdict] at hm
      rcases Nat.lt_or_ge (m.state.consecutive_failures + 1) strikes with hlt1 | hge1
      · have hstep := monitorCycle_fail_step strikes minLayer hs path v hv m hact hlay hlt1
        obtain ⟨ih1, ih2⟩ :=
          ih (monitorCycle strikes minLayer (CycleOutcome.analyzed path v) m).1
            (fun x hx => hall x (List.mem_cons_of_mem _ hx))
            (by rw [hstep]; exact hact)
            (by rw [hstep]; exact hlay)
            (by rw [hstep]
                show m.state.consecutive_failures + 1 < strikes
                omega)
            (by rw [hstep]
                show m.state.consecutive_failures + 1 + rest.length = strikes
                omega)
        rw [runCycles_cons]
        refine ⟨?_, ih2⟩
        rw [ih1, hstep]
        rfl
      · have hrest : rest = [] := by
          have hlen0 : rest.length = 0 := by omega
          exact List.eq_nil_of_length_eq_zero hlen0
        subst hrest
        have hhit := monitorCycle_fail_hit strikes minLayer hs path v hv m hact hlay hge1
        rw [runCycles_cons]
        constructor
        · rw [hhit.1]
          simp [runCycles, CycleEffects.add, CycleEffects.zero]
        · simpa [runCycles] using hhit.2

/-- While the monitor is active the strike counter stays strictly below
the effective threshold: one cycle preserves this. -/
theorem monitorCycle_cf_lt (strikes minLayer : Nat) (o : CycleOutcome) (m : PrintMonitor)
    (h : m.state.active = true → m.state.consecutive_failures < orDefault strikes 3) :
    (monitorCycle strikes minLayer o m).1.state.active = true →
    (monitorCycle strikes minLayer o m).1.state.consecutive_failures
        < orDefault strikes 3 := by
  by_cases hact : m.state.active = true
  · unfold monitorCycle
    rw [if_neg (by simp [hact])]
    cases o with
    | snapshotFailed e =>
        intro _
        exact h hact
    | analyzeFailed p e =>
        dsimp only
        split
        · intro _
          exact h hact
        · intro _
          exact h hact
    | analyzed p v =>
        dsimp only
        split
        · intro _
          exact h hact
        · split
          · split
            · intro hres
              exact absurd hres
                (by simp [PrintMonitor.handle_failure, PrintMonitor.stop])
            · intro _
              show m.state.consecutive_failures + 1 < orDefault strikes 3
              omega
          · intro _
            exact orDefault_pos strikes
  · unfold monitorCycle
    rw [if_pos (by simpa using hact)]
    exact h

/-- The strike-counter bound is preserved along any run. -/
theorem runCycles_cf_lt (strikes minLayer : Nat) :
    ∀ (outs : List CycleOutcome) (m : PrintMonitor),
      (m.state.active = true →
        m.state.consecutive_failures < orDefault strikes 3) →
      (runCycles strikes minLayer outs m).1.state.active = true →
      (runCycles strikes minLayer outs m).1.state.consecutive_failures
          < orDefault strikes 3 := by
  intro outs
  induction outs with
  | nil =>
      intro m h
      simpa [runCycles] using h
  | cons o rest ih =>
      intro m h
      rw [runCycles_cons]
      exact ih (monitorCycle strikes minLayer o m).1
        (monitorCycle_cf_lt strikes minLayer o m h)

/-! ### Claim theorems about the monitor -/

/-- Claim C1: starting from a freshly started monitor, any sequence of
`N` consecutive failing verdicts with `N` strictly below the configured
strike threshold leaves `consecutive_failures = N` without invoking the
abort callback, the notification dispatch or `stop`; when `N` equals the
threshold, abort, notification and `stop` are each triggered exactly once
(and the monitor ends inactive, so nothing fires again). -/
theorem c1_strike_escalation (strikes minLayer : Nat) (hs : 1 ≤ strikes)
    (outs : List CycleOutcome) (hall : ∀ o ∈ outs, o.isFailingVerdict = true) :
    (outs.length < strikes →
        (runCycles strikes minLayer outs startedMonitor).1.state.consecutive_failures
            = outs.length ∧
        (runCycles strikes minLayer outs startedMonitor).2 = CycleEffects.zero) ∧
    (outs.length = strikes →
        (runCycles strikes minLayer outs startedMonitor).2 = ⟨1, 1, 1⟩ ∧
        (runCycles strikes minLayer outs startedMonitor).1.state.active = false) := by
  have hs0 : strikes ≠ 0 := by omega
  constructor
  · intro hlen
    obtain ⟨h1, _, _, h4⟩ := runCycles_fail_below strikes minLayer hs0 outs
      startedMonitor hall rfl rfl
      (by show 0 + outs.length < strikes; omega)
    refine ⟨?_, h4⟩
    rw [h1]
    show 0 + outs.length = outs.length
    omega
  · intro hlen
    exact runCycles_fail_hit strikes minLayer hs0 outs startedMonitor hall rfl rfl
      (by show 0 < strikes; omega)
      (by show 0 + outs.length = strikes; omega)

/-- Witness for C1: threshold 3, three consecutive failing verdicts. -/
theorem c1_strike_escalation_witness :
    (runCycles 3 2 (List.replicate 3 failOutcome) startedMonitor).2 = ⟨1, 1, 1⟩ ∧
    (runCycles 3 2 (List.replicate 3 failOutcome) startedMonitor).1.state.active
        = false :=
  (c1_strike_escalation 3 2 (by decide) (List.replicate 3 failOutcome)
    (by decide)).2 rfl

/-- Claim C3: processing any single non-failing verdict resets
`consecutive_failures` to 0 whatever the prior streak was, and along every
run from a started monitor `consecutive_failures` never exceeds the
configured strike threshold while `active` is true (reaching it triggers
the abort transition and `stop`, clearing `active`). -/
theorem c3_strike_invariant (strikes minLayer : Nat) (hs : 1 ≤ strikes) :
    (∀ outs : List CycleOutcome,
        (runCycles strikes minLayer outs startedMonitor).1.state.active = true →
        (runCycles strikes minLayer outs startedMonitor).1.state.consecutive_failures
            ≤ strikes) ∧
    (∀ (m : PrintMonitor) (path : String) (v : VisionAnalysisResult),
        v.failed = false → m.state.active = true →
        layerGateBlocks minLayer m.state = false →
        (monitorCycle strikes minLayer (.analyzed path v) m).1.state.consecutive_failures
            = 0) := by
  have hs0 : strikes ≠ 0 := by omega
  have hord : orDefault strikes 3 = strikes := by simp [orDefault, hs0]
  constructor
  · intro outs hact
    have hlt := runCycles_cf_lt strikes minLayer outs startedMonitor
      (fun _ => by show 0 < orDefault strikes 3; exact orDefault_pos strikes) hact
    rw [hord] at hlt
    omega
  · intro m path v hv hact hgate
    cases hl : m.state.layer with
    | none =>
        simp [monitorCycle, hact, hv, layerGateBlocks, hl]
    | some l =>
        have hban : ¬ l < orDefault minLayer 2 := by
          simpa [layerGateBlocks, hl] using hgate
        simp [monitorCycle, hact, hv, layerGateBlocks, hl, hban]

/-- Witness for C3: one strike of three keeps the bound; an OK verdict
resets a streak of two. -/
theorem c3_strike_invariant_witness :
    (runCycles 3 2 [failOutcome] startedMonitor).1.state.consecutive_failures ≤ 3 ∧
    (monitorCycle 3 2 (CycleOutcome.analyzed "snap.jpg" okVerdict)
        streakMonitor).1.state.consecutive_failures = 0 :=
  ⟨(c3_strike_invariant 3 2 (by decide)).1 [failOutcome] (by decide),
   (c3_strike_invariant 3 2 (by decide)).2 streakMonitor "snap.jpg" okVerdict
     rfl rfl rfl⟩

/-- Claim C4: a cycle whose snapshot acquisition raises, or whose vision
analysis raises, leaves `consecutive_failures` unchanged, leaves `active`
true, triggers neither abort nor notification nor `stop`, and only
appends an error message. -/
theorem c4_transient_errors_frame (strikes minLayer : Nat) (m : PrintMonitor)
    (hact : m.state.active = true) (err : String) (path : String) :
    ((monitorCycle strikes minLayer (.snapshotFailed err) m).1.state.consecutive_failures
        = m.state.consecutive_failures ∧
     (monitorCycle strikes minLayer (.snapshotFailed err) m).1.state.active = true ∧
     (monitorCycle strikes minLayer (.snapshotFailed err) m).2 = CycleEffects.zero ∧
     (monitorCycle strikes minLayer (.snapshotFailed err) m).1.state.errors
        = m.state.errors ++
          ["Cycle " ++ toString (m.state.cycle_count + 1) ++ ": snapshot failed: " ++ err]) ∧
    (layerGateBlocks minLayer m.state = false →
     (monitorCycle strikes minLayer (.analyzeFailed path err) m).1.state.consecutive_failures
        = m.state.consecutive_failures ∧
     (monitorCycle strikes minLayer (.analyzeFailed path err) m).1.state.active = true ∧
     (monitorCycle strikes minLayer (.analyzeFailed path err) m).2 = CycleEffects.zero ∧
     (monitorCycle strikes minLayer (.analyzeFailed path err) m).1.state.errors
        = m.state.errors ++
          ["Cycle " ++ toString (m.state.cycle_count + 1) ++ ": vision error: " ++ err]) := by
  constructor
  · refine ⟨?_, ?_, ?_, ?_⟩ <;> simp [monitorCycle, hact]
  · intro hgate
    cases hl : m.state.layer with
    | none =>
        refine ⟨?_, ?_, ?_, ?_⟩ <;> simp [monitorCycle, hact, layerGateBlocks, hl]
    | some l =>
        have hban : ¬ l < orDefault minLayer 2 := by
          simpa [layerGateBlocks, hl] using hgate
        refine ⟨?_, ?_, ?_, ?_⟩ <;>
          simp [monitorCycle, hact, layerGateBlocks, hl, hban]

/-- Witness for C4: a snapshot failure and a vision failure on a freshly
started monitor. -/
theorem c4_transient_errors_frame_witness :
    (monitorCycle 3 2 (CycleOutcome.snapshotFailed "down")
        startedMonitor).1.state.active = true ∧
    (monitorCycle 3 2 (CycleOutcome.analyzeFailed "p.jpg" "timeout")
        startedMonitor).2 = CycleEffects.zero :=
  ⟨((c4_transient_errors_frame 3 2 startedMonitor rfl "down" "p.jpg").1).2.1,
   (((c4_transient_errors_frame 3 2 startedMonitor rfl "timeout" "p.jpg").2 rfl).2).2.1⟩

end GuardianEye
